import Mathlib

/-!
Shallow embedding of the ComparisonSlider component (src/unnamed/part_000)
of the PixelLift repository.

The component keeps two pieces of React state, `sliderPosition` (initially
50) and `isDragging` (initially false).  Pointer coordinates and container
geometry are JavaScript numbers; every value arising in this component is an
exact rational, with one exception: when the container's bounding box has
width 0, `handleMove` computes `0 / 0`, which is `NaN` in JavaScript.  We
therefore model the stored position as `Option ℚ`, where `none` stands for
`NaN` and `some q` for the finite value `q`.

Event handling is modelled as a step function on this state.  Document-level
`mousemove` / `mouseup` / `touchmove` / `touchend` listeners are attached by
the `useEffect` only while `isDragging` is true; no `touchcancel` listener is
ever registered.  A `click` listener sits permanently on the container.
-/

namespace ComparisonSlider

/-- The container's bounding box as returned by `getBoundingClientRect()`:
its left offset and its width (src/unnamed/part_000, line 26). -/
structure Rect where
  left : ℚ
  width : ℚ
  deriving DecidableEq, Repr

/-- The input events the component reacts to.  Move and click events carry
the bounding box read at the moment the event occurs (`none` when
`containerRef.current` is null, i.e. the container is not laid out) together
with the pointer's horizontal coordinate `clientX`. -/
inductive Event where
  | mouseDown
  | touchStart
  | mouseUp
  | touchEnd
  | touchCancel
  | mouseMove (geom : Option Rect) (clientX : ℚ)
  | touchMove (geom : Option Rect) (clientX : ℚ)
  | click (geom : Option Rect) (clientX : ℚ)
  deriving DecidableEq, Repr

/-- The component's state: `sliderPosition` (a percentage; `none` models the
JavaScript value `NaN`) and the `isDragging` flag
(src/unnamed/part_000, lines 19-20). -/
structure SliderState where
  sliderPosition : Option ℚ
  isDragging : Bool
  deriving DecidableEq, Repr

/-- `handleMove` (src/unnamed/part_000, lines 23-32):

  if (!containerRef.current) return;
  const rect = containerRef.current.getBoundingClientRect();
  const x = Math.max(0, Math.min(clientX - rect.left, rect.width));
  const percentage = (x / rect.width) * 100;
  setSliderPosition(percentage);

When `rect.width = 0` the clamped `x` is 0 and JavaScript evaluates
`(0 / 0) * 100` to `NaN`, modelled here as `none`.  For `rect.width ≠ 0`
the computation is exact rational arithmetic. -/
def handleMove (geom : Option Rect) (clientX : ℚ) (s : SliderState) : SliderState :=
  match geom with
  | none => s
  | some rect =>
    let x := max 0 (min (clientX - rect.left) rect.width)
    if rect.width = 0 then { s with sliderPosition := none }
    else { s with sliderPosition := some (x / rect.width * 100) }

/-- One step of the component's event handling (src/unnamed/part_000):
* `mouseDown` / `touchStart` on the handle set `isDragging` (lines 34-35);
* document `mouseup` / `touchend` listeners, attached only while dragging,
  clear `isDragging` (lines 37-51); no `touchcancel` listener exists, so a
  touch cancellation changes nothing;
* document `mousemove` / `touchmove` listeners, attached only while dragging
  and additionally guarded by the `isDragging` flag, call `handleMove`
  (lines 39-44);
* a `click` on the container always calls `handleMove` (lines 62-64, 70). -/
def step (s : SliderState) (e : Event) : SliderState :=
  match e with
  | .mouseDown => { s with isDragging := true }
  | .touchStart => { s with isDragging := true }
  | .mouseUp => if s.isDragging then { s with isDragging := false } else s
  | .touchEnd => if s.isDragging then { s with isDragging := false } else s
  | .touchCancel => s
  | .mouseMove g x => if s.isDragging then handleMove g x s else s
  | .touchMove g x => if s.isDragging then handleMove g x s else s
  | .click g x => handleMove g x s

/-- The initial state: `useState(50)` and `useState(false)`
(src/unnamed/part_000, lines 19-20). -/
def initState : SliderState :=
  { sliderPosition := some 50, isDragging := false }

/-- The position-dependent parameters of the rendered output: the four
inset components of the clip path of the before-image overlay
(src/unnamed/part_000, line 92) and the left offset of the divider handle
(line 110), all in percent. -/
structure RenderOutput where
  clipTop : ℚ
  clipRight : ℚ
  clipBottom : ℚ
  clipLeft : ℚ
  handleLeft : ℚ
  deriving DecidableEq, Repr

/-- The rendering of a stored position `p`:
`clipPath: inset(0 ${100 - sliderPosition}% 0 0)` for the before-image
overlay (src/unnamed/part_000, line 92) and `left: ${sliderPosition}%` for
the handle (line 110). -/
def render (sliderPosition : ℚ) : RenderOutput :=
  { clipTop := 0
    clipRight := 100 - sliderPosition
    clipBottom := 0
    clipLeft := 0
    handleLeft := sliderPosition }

/-- The clamping function exactly as the specification words it:
`clamp(v, lo, hi)`. -/
def specClamp (v lo hi : ℚ) : ℚ := min (max v lo) hi

/-- The position the specification prescribes for a handled coordinate:
`clamp(clientX - left, 0, width) / width * 100`. -/
def specPercentage (left width clientX : ℚ) : ℚ :=
  specClamp (clientX - left) 0 width / width * 100

/-- The stored position is a (finite) value in the closed range [0, 100].
A `NaN` position (`none`) does not satisfy this. -/
def positionInRange (s : SliderState) : Prop :=
  ∃ q, s.sliderPosition = some q ∧ 0 ≤ q ∧ q ≤ 100

/-- A geometry that cannot make `handleMove` divide by zero: either no
container (the event is dropped) or a bounding box of nonzero width. -/
def geomOk : Option Rect → Bool
  | none => true
  | some r => r.width != 0

/-- The events whose handling reads container geometry carry a geometry
that cannot make `handleMove` divide by zero. -/
def eventGeomOk : Event → Bool
  | .mouseMove g _ => geomOk g
  | .touchMove g _ => geomOk g
  | .click g _ => geomOk g
  | _ => true

/-- Pointer/touch move events: not a press, not a release, not a click. -/
def isMoveEvent : Event → Bool
  | .mouseMove _ _ => true
  | .touchMove _ _ => true
  | _ => false

/-- Claim C10: before any event is handled the slider position is exactly
50 (the divider starts at the horizontal midpoint) and the drag state is
idle. -/
theorem initial_state_midpoint_idle :
    initState.sliderPosition = some 50 ∧ initState.isDragging = false :=
  ⟨rfl, rfl⟩

/-- Claim C9: handling the same coordinate twice in a row (two clicks, the
path through `handleMove`) yields the same state as handling it once: the
result depends only on the coordinate and the geometry, not on the previous
position, so there is no drift. -/
theorem handle_same_coordinate_idempotent (g : Option Rect) (clientX : ℚ)
    (s : SliderState) :
    step (step s (.click g clientX)) (.click g clientX) = step s (.click g clientX) := by
  cases g with
  | none => rfl
  | some r =>
    simp only [step, handleMove]
    split <;> rfl

/-- For a container of nonnegative width the code's clamping order,
`Math.max(0, Math.min(offset, width))`, agrees with the specification's
`clamp(offset, 0, width) = min (max offset 0) width`. -/
lemma max_min_eq_specClamp (a w : ℚ) (hw : 0 ≤ w) :
    max 0 (min a w) = specClamp a 0 w := by
  rw [specClamp, max_min_distrib_left, max_comm 0 a, max_eq_right hw]

/-- For nonzero width `handleMove` stores exactly the code's percentage. -/
lemma handleMove_some (left width clientX : ℚ) (s : SliderState) (hw : width ≠ 0) :
    (handleMove (some ⟨left, width⟩) clientX s).sliderPosition
      = some (max 0 (min (clientX - left) width) / width * 100) := by
  simp only [handleMove]
  rw [if_neg hw]

/-- Claim C1: for every pointer move handled while dragging, and for every
direct click, with a container of positive width the new stored position
equals `clamp(clientX - left, 0, width) / width * 100`. -/
theorem handled_move_matches_spec (left width clientX : ℚ) (s : SliderState)
    (hw : 0 < width) (hd : s.isDragging = true) :
    (step s (.mouseMove (some ⟨left, width⟩) clientX)).sliderPosition
        = some (specPercentage left width clientX) ∧
    (step s (.touchMove (some ⟨left, width⟩) clientX)).sliderPosition
        = some (specPercentage left width clientX) ∧
    (step s (.click (some ⟨left, width⟩) clientX)).sliderPosition
        = some (specPercentage left width clientX) := by
  have hkey : (handleMove (some ⟨left, width⟩) clientX s).sliderPosition
      = some (specPercentage left width clientX) := by
    rw [handleMove_some left width clientX s hw.ne',
      max_min_eq_specClamp (clientX - left) width hw.le, specPercentage]
  simp only [step, hd, if_true]
  exact ⟨hkey, hkey, hkey⟩

/-- Witness for C1: dragging with the container at left offset 0 and width
100, a pointer at `clientX = 30` stores the spec's percentage, which is 30. -/
theorem handled_move_matches_spec_witness :
    (0 : ℚ) < 100 ∧
    (step ⟨some 50, true⟩ (.click (some ⟨0, 100⟩) 30)).sliderPosition
      = some (specPercentage 0 100 30) ∧
    specPercentage 0 100 30 = 30 :=
  ⟨by norm_num,
   (handled_move_matches_spec 0 100 30 ⟨some 50, true⟩ (by norm_num) rfl).2.2,
   by norm_num [specPercentage, specClamp]⟩

/-- Claim C4: with positive container width, a handled coordinate whose
offset `clientX - left` is at most 0 stores exactly 0, and one whose offset
is at least `width` stores exactly 100: out-of-bounds coordinates are
clamped, never rejected.  Stated about `handleMove`, the single routine all
handled moves and clicks go through. -/
theorem clamped_extremes (left width clientX : ℚ) (s : SliderState)
    (hw : 0 < width) :
    (clientX - left ≤ 0 →
      (handleMove (some ⟨left, width⟩) clientX s).sliderPosition = some 0) ∧
    (width ≤ clientX - left →
      (handleMove (some ⟨left, width⟩) clientX s).sliderPosition = some 100) := by
  constructor
  · intro hlo
    rw [handleMove_some left width clientX s hw.ne']
    have hx : max 0 (min (clientX - left) width) = 0 :=
      max_eq_left (le_trans (min_le_left _ _) hlo)
    rw [hx, zero_div, zero_mul]
  · intro hhi
    rw [handleMove_some left width clientX s hw.ne']
    have hx : max 0 (min (clientX - left) width) = width := by
      rw [min_eq_right hhi, max_eq_right hw.le]
    rw [hx, div_self hw.ne', one_mul]

/-- Witness for C4: with left offset 0 and width 100, a coordinate at -5
stores 0 and a coordinate at 150 stores 100. -/
theorem clamped_extremes_witness :
    (handleMove (some ⟨0, 100⟩) (-5) ⟨some 50, false⟩).sliderPosition = some 0 ∧
    (handleMove (some ⟨0, 100⟩) 150 ⟨some 50, false⟩).sliderPosition = some 100 :=
  ⟨(clamped_extremes 0 100 (-5) ⟨some 50, false⟩ (by norm_num)).1 (by norm_num),
   (clamped_extremes 0 100 150 ⟨some 50, false⟩ (by norm_num)).2 (by norm_num)⟩

/-- Claim C7: a direct click on the container while idle stores the same
clamped percentage the specification's algorithm prescribes and leaves the
drag state idle: the click never sets the dragging flag. -/
theorem click_while_idle (left width clientX : ℚ) (s : SliderState)
    (hd : s.isDragging = false) (hw : 0 < width) :
    (step s (.click (some ⟨left, width⟩) clientX)).sliderPosition
        = some (specPercentage left width clientX) ∧
    (step s (.click (some ⟨left, width⟩) clientX)).isDragging = false := by
  constructor
  · show (handleMove (some ⟨left, width⟩) clientX s).sliderPosition = _
    rw [handleMove_some left width clientX s hw.ne',
      max_min_eq_specClamp (clientX - left) width hw.le, specPercentage]
  · show (handleMove (some ⟨left, width⟩) clientX s).isDragging = false
    simp only [handleMove]
    split <;> exact hd

/-- Witness for C7: from the idle initial state, a click at `clientX = 60`
on a container with left offset 10 and width 200 stores the spec percentage
(which is 25) and stays idle. -/
theorem click_while_idle_witness :
    (step initState (.click (some ⟨10, 200⟩) 60)).sliderPosition
        = some (specPercentage 10 200 60) ∧
    (step initState (.click (some ⟨10, 200⟩) 60)).isDragging = false ∧
    specPercentage 10 200 60 = 25 :=
  ⟨(click_while_idle 10 200 60 initState rfl (by norm_num)).1,
   (click_while_idle 10 200 60 initState rfl (by norm_num)).2,
   by norm_num [specPercentage, specClamp]⟩

/-- Claim C8: for every stored position `p` the rendered output insets the
before-image overlay from the right edge by exactly `(100 - p)%`, pins the
divider handle at a left offset of exactly `p%`, and the resulting clip
boundary (the right edge of the visible region) coincides with the handle
position. -/
theorem render_contract (p : ℚ) :
    (render p).clipRight = 100 - p ∧ (render p).handleLeft = p ∧
      100 - (render p).clipRight = (render p).handleLeft := by
  refine ⟨rfl, rfl, ?_⟩
  simp [render]

/-- For nonzero width the code's percentage lies in [0, 100]. -/
lemma percentage_mem (a w : ℚ) (hw : w ≠ 0) :
    0 ≤ max 0 (min a w) / w * 100 ∧ max 0 (min a w) / w * 100 ≤ 100 := by
  rcases hw.lt_or_lt with hneg | hpos
  · have hx : max 0 (min a w) = 0 :=
      max_eq_left (le_of_lt (lt_of_le_of_lt (min_le_right a w) hneg))
    rw [hx, zero_div, zero_mul]
    norm_num
  · have h0 : (0 : ℚ) ≤ max 0 (min a w) := le_max_left 0 _
    have h1 : max 0 (min a w) ≤ w := max_le hpos.le (min_le_right a w)
    have hdiv0 : (0 : ℚ) ≤ max 0 (min a w) / w := div_nonneg h0 hpos.le
    have hdiv1 : max 0 (min a w) / w ≤ 1 := (div_le_one hpos).mpr h1
    constructor
    · nlinarith
    · nlinarith

/-- `handleMove` keeps the position in [0, 100] whenever its geometry is
`none` or has nonzero width. -/
lemma handleMove_preserves_range (g : Option Rect) (x : ℚ) (s : SliderState)
    (hs : positionInRange s) (hg : geomOk g = true) :
    positionInRange (handleMove g x s) := by
  cases g with
  | none => exact hs
  | some r =>
    have hw : r.width ≠ 0 := by simpa [geomOk] using hg
    simp only [handleMove]
    rw [if_neg hw]
    exact ⟨_, rfl, (percentage_mem (x - r.left) r.width hw).1,
      (percentage_mem (x - r.left) r.width hw).2⟩

/-- One step keeps the position in [0, 100] whenever the event's geometry,
if any, is `none` or has nonzero width. -/
lemma step_preserves_range (s : SliderState) (e : Event)
    (hs : positionInRange s) (he : eventGeomOk e = true) :
    positionInRange (step s e) := by
  cases e with
  | mouseDown => exact hs
  | touchStart => exact hs
  | mouseUp => simp only [step]; split <;> exact hs
  | touchEnd => simp only [step]; split <;> exact hs
  | touchCancel => exact hs
  | mouseMove g x =>
    simp only [step]
    split
    · exact handleMove_preserves_range g x s hs (by simpa [eventGeomOk] using he)
    · exact hs
  | touchMove g x =>
    simp only [step]
    split
    · exact handleMove_preserves_range g x s hs (by simpa [eventGeomOk] using he)
    · exact hs
  | click g x =>
    exact handleMove_preserves_range g x s hs (by simpa [eventGeomOk] using he)

/-- Folding any sequence of geometry-ok events preserves the range. -/
lemma foldl_preserves_range (evs : List Event) (s : SliderState)
    (hs : positionInRange s) (h : ∀ e ∈ evs, eventGeomOk e = true) :
    positionInRange (evs.foldl step s) := by
  induction evs generalizing s with
  | nil => exact hs
  | cons e rest ih =>
    exact ih (step s e)
      (step_preserves_range s e hs (h e (List.mem_cons_self e rest)))
      (fun x hx => h x (List.mem_cons_of_mem e hx))

/-- Counterexample to Claim C2 as stated ("a container of any width"): a
single click on a container with a zero-width bounding box drives the stored
position to `NaN` (`0 / 0` in JavaScript), which is not a value of [0, 100]. -/
theorem position_range_cex :
    ¬ positionInRange (step initState (.click (some ⟨0, 0⟩) 5)) := by
  simp [positionInRange, step, handleMove, initState]

/-- Claim C2 (amended): for every sequence of pointer/touch/click events in
which each move or click is handled with either no container geometry or a
bounding box of nonzero width — pointer coordinates may still lie arbitrarily
far outside the container — the position stays in the closed range [0, 100]
from the initial state onwards.  (A zero-width bounding box instead stores
`NaN`, see the counterexample.) -/
theorem position_in_range_amended (evs : List Event)
    (h : ∀ e ∈ evs, eventGeomOk e = true) :
    positionInRange (evs.foldl step initState) :=
  foldl_preserves_range evs initState ⟨50, rfl, by norm_num⟩ h

/-- Witness for the amended C2: a drag that wanders far outside the
container, followed by a release and a click, keeps the position in range. -/
theorem position_in_range_amended_witness :
    positionInRange
      ([Event.mouseDown, Event.mouseMove (some ⟨0, 100⟩) 2500,
        Event.mouseUp, Event.click (some ⟨0, 100⟩) (-40)].foldl step initState) :=
  position_in_range_amended _ (by decide)

/-- Counterexample to Claim C3 as stated: a click arriving while the
container's bounding box has zero width is not ignored — the stored position
changes (from 50 to `NaN`). -/
theorem zero_width_changes_state_cex :
    (step initState (.click (some ⟨0, 0⟩) 0)).sliderPosition
      ≠ initState.sliderPosition := by
  simp [step, handleMove, initState]

/-- Claim C3 (amended): a pointer event arriving when the container has no
geometry at all (`containerRef.current` null, the container not laid out) is
ignored: the state is completely unchanged and nothing fails.  A container
with a zero-width bounding box is not guarded against: such an event instead
stores `NaN` (`none`) as the position. -/
theorem null_geometry_ignored (s : SliderState) (left clientX : ℚ) :
    step s (.click none clientX) = s ∧
    step s (.mouseMove none clientX) = s ∧
    step s (.touchMove none clientX) = s ∧
    (step s (.click (some ⟨left, 0⟩) clientX)).sliderPosition = none := by
  refine ⟨rfl, ?_, ?_, ?_⟩
  · simp only [step, handleMove]
    split <;> rfl
  · simp only [step, handleMove]
    split <;> rfl
  · show (handleMove (some ⟨left, 0⟩) clientX s).sliderPosition = none
    simp [handleMove]

/-- Counterexample to Claim C5 as stated: no `touchcancel` listener is ever
registered (src/unnamed/part_000, lines 46-51 attach only `mouseup`,
`mousemove`, `touchend`, `touchmove`), so a touch cancellation while
dragging does not transition the component to idle. -/
theorem touchcancel_keeps_dragging_cex :
    ¬ ((step ⟨some 50, true⟩ Event.touchCancel).isDragging = false) := by
  decide

/-- Claim C5 (amended): in the dragging state, a mouse-up or a touch-end
anywhere in the document transitions the component to idle (the drag flag
becomes false); a touch cancellation does not — the component stays
dragging, because no `touchcancel` listener is registered. -/
theorem release_to_idle (s : SliderState) (hd : s.isDragging = true) :
    (step s .mouseUp).isDragging = false ∧
    (step s .touchEnd).isDragging = false ∧
    (step s .touchCancel).isDragging = true := by
  simp [step, hd]

/-- Witness for the amended C5 at a concrete dragging state. -/
theorem release_to_idle_witness :
    (step ⟨some 50, true⟩ Event.mouseUp).isDragging = false ∧
    (step ⟨some 50, true⟩ Event.touchEnd).isDragging = false ∧
    (step ⟨some 50, true⟩ Event.touchCancel).isDragging = true :=
  release_to_idle ⟨some 50, true⟩ rfl

/-- Claim C6: once the component is idle (drag released), any sequence of
pointer/touch move events — no new press, no click — leaves the stored
position unchanged: it stays frozen at its last value. -/
theorem idle_moves_freeze_position (s : SliderState) (evs : List Event)
    (hd : s.isDragging = false) (hm : ∀ e ∈ evs, isMoveEvent e = true) :
    (evs.foldl step s).sliderPosition = s.sliderPosition := by
  induction evs generalizing s with
  | nil => rfl
  | cons e rest ih =>
    have hstep : step s e = s := by
      have he := hm e (List.mem_cons_self e rest)
      cases e <;> simp_all [step, isMoveEvent]
    rw [List.foldl_cons, hstep]
    exact ih s hd (fun x hx => hm x (List.mem_cons_of_mem e hx))

/-- Witness for C6: from an idle state at position 25, two moves (mouse and
touch) leave the position at 25. -/
theorem idle_moves_freeze_position_witness :
    (([Event.mouseMove (some ⟨0, 100⟩) 70,
       Event.touchMove (some ⟨0, 100⟩) 10].foldl step
      ⟨some 25, false⟩)).sliderPosition = (SliderState.mk (some 25) false).sliderPosition :=
  idle_moves_freeze_position ⟨some 25, false⟩ _ rfl (by decide)

end ComparisonSlider
